import Mathlib

/-!
Shallow embedding of the openclaw voice-messaging skill's provider
abstraction and dispatch layer (src/providers.py, src/stt_providers.py,
src/tts_providers.py, src/audio_processor.py, src/voice_handler.py).

Python exceptions are modelled by the `PyErr` inductive; a Python method
that may raise is embedded as a function into `Except PyErr _`.  Mutable
state (adapter objects, the file system) is passed explicitly.  The spec's
abstract error taxonomy maps onto concrete Python exceptions as follows:
`UnknownProvider` is the `ValueError "Unknown … provider: …"` raised by the
factory, `ProviderInitError` is whatever exception the adapter constructor
raised (ImportError / NotImplementedError / TypeError / load failure),
`BackendUnavailable` is the requests `ConnectionError`, `ProviderError`
includes the `HTTPError` from `raise_for_status`, `ToolUnavailable` /
`ConversionError` are the two `RuntimeError`s of the audio processor, and
`NotSupported` is `NotImplementedError`.
-/

/-- Python exceptions that the embedded code can raise. -/
inductive PyErr where
  | valueError (msg : String)
  | typeError (msg : String)
  | importError (msg : String)
  | notImplementedError (msg : String)
  | runtimeError (msg : String)
  | httpError (status : Nat)
  | connectionError
  | otherError (msg : String)
deriving DecidableEq, Repr

/-- Bytes of a file or HTTP body, modelled abstractly. -/
def ByteSeq := List Nat
deriving DecidableEq, Repr

/-- The file system: an association list from path to written bytes; the
most recent write of a path shadows older entries (like `open(p,"wb")`). -/
def FS := List (String × ByteSeq)
deriving DecidableEq, Repr

/-- `open(path, "wb"); f.write(content)` — record the full new content. -/
def fsWrite (fs : FS) (path : String) (content : ByteSeq) : FS :=
  (path, content) :: fs

/-- `os.unlink(path)` — drop every record of the path. -/
def fsRemove (fs : FS) (path : String) : FS :=
  fs.filter (fun e => e.1 ≠ path)

/-- A flat provider configuration mapping (`**config`): each field models
the presence/absence of the keyword of that name.  Keys never consumed by
any constructor are not modelled; extra keys are absorbed by `**kwargs` in
every constructor, so omitting them loses nothing. -/
structure Config where
  base_url : Option String := none
  voice : Option String := none
  format : Option String := none
  api_key : Option String := none
  model : Option String := none
  device : Option String := none
  compute_type : Option String := none
  model_path : Option String := none
  voice_id : Option String := none
  language : Option String := none
deriving DecidableEq, Repr

/-- The `**kwargs` of a `synthesize` call: each field models the
presence/absence of that key in the kwargs dict. -/
structure Kwargs where
  voice : Option String := none
  format : Option String := none
  model : Option String := none
  voice_id : Option String := none
deriving DecidableEq, Repr

/-- `kwargs.get(key, default)` is `Option.getD` on the matching field. -/
abbrev kwGet (o : Option String) (dflt : String) : String := o.getD dflt

/-- Ambient Python process state that adapter constructors consult:
which optional dependencies import successfully, and what the external
model-loading calls return. -/
structure PyEnv where
  requests_installed : Bool
  openai_installed : Bool
  whisper_installed : Bool
  faster_whisper_installed : Bool
  google_installed : Bool
  whisper_load : String → Option String → Except PyErr Nat
  fw_load : String → String → String → Except PyErr Nat
  google_client : Except PyErr Nat

/-- Result dict of `STTProvider.transcribe`.  Python floats are modelled
as rationals (the adapters only ever produce exact values). -/
structure TranscriptionResult where
  text : String
  language : String
  language_probability : Rat
  duration : Rat
deriving DecidableEq, Repr

/-- An opaque audio stream argument (`transcribe_stream` never inspects it). -/
structure AudioStream where
deriving DecidableEq, Repr

/-! ## HTTP plumbing shared by the requests-based adapters -/

/-- An HTTP response as the adapters observe it: status code and body. -/
structure HTTPResponse where
  status : Nat
  content : ByteSeq
deriving DecidableEq, Repr

/-- `requests.Response.raise_for_status()`: raises `HTTPError` exactly for
client-error (4xx) and server-error (5xx) status codes. -/
def raise_for_status (resp : HTTPResponse) : Except PyErr Unit :=
  if 400 ≤ resp.status ∧ resp.status < 600 then
    .error (.httpError resp.status)
  else
    .ok ()

/-! ## KokoroTTS (tts_providers.py) -/

/-- Fields set by `KokoroTTS.__init__` (the requests `Session` object holds
no observable state and is not modelled). -/
structure KokoroState where
  base_url : String
  voice : String
  format : String
deriving DecidableEq, Repr

/-- JSON body sent to `{base_url}/audio/speech`. -/
structure SpeechRequest where
  model : String
  input : String
  voice : String
  response_format : String
deriving DecidableEq, Repr

/-- Response of `GET {base_url}/audio/voices`; `voices_field` models
`data.get("voices", [])` on the decoded JSON body. -/
structure VoicesResponse where
  status : Nat
  voices_field : Option (List String)
deriving DecidableEq, Repr

/-- Behaviour of the Kokoro FastAPI server as seen through `requests`:
an `Except.error` models a raised `ConnectionError`/timeout, an
`Except.ok` a response that arrived (of any status). -/
structure KokoroBackend where
  speech : SpeechRequest → Except PyErr HTTPResponse
  voices : Except PyErr VoicesResponse

/-- `KokoroTTS.__init__(base_url="http://localhost:8880/v1",
voice="af_bella", format="ogg", **kwargs)`. -/
def KokoroTTS.init (env : PyEnv) (cfg : Config) : Except PyErr KokoroState :=
  if env.requests_installed = false then
    .error (.importError "requests not installed. Run: pip install requests")
  else
    .ok { base_url := cfg.base_url.getD "http://localhost:8880/v1"
          voice := cfg.voice.getD "af_bella"
          format := cfg.format.getD "ogg" }

/-- The JSON payload `KokoroTTS.synthesize` posts: voice and format come
from the kwargs when present, else from the adapter's configured defaults. -/
def KokoroTTS.requestOf (s : KokoroState) (kw : Kwargs) (text : String) :
    SpeechRequest :=
  { model := "kokoro"
    input := text
    voice := kwGet kw.voice s.voice
    response_format := kwGet kw.format s.format }

/-- `KokoroTTS.synthesize(text, output_file, **kwargs)`: POST the payload,
`raise_for_status`, then write the body to `output_file`.  The method never
assigns to `self`, so no adapter state is returned. -/
def KokoroTTS.synthesize (s : KokoroState) (bk : KokoroBackend)
    (text output_file : String) (kw : Kwargs) (fs : FS) :
    Except PyErr Unit × FS :=
  match bk.speech (KokoroTTS.requestOf s kw text) with
  | .error e => (.error e, fs)
  | .ok resp =>
    match raise_for_status resp with
    | .error e => (.error e, fs)
    | .ok _ => (.ok (), fsWrite fs output_file resp.content)

/-- `KokoroTTS.get_voices()`: GET the voices endpoint, `raise_for_status`,
then `data.get("voices", [])`. -/
def KokoroTTS.get_voices (_s : KokoroState) (bk : KokoroBackend) :
    Except PyErr (List String) :=
  match bk.voices with
  | .error e => .error e
  | .ok resp =>
    if 400 ≤ resp.status ∧ resp.status < 600 then
      .error (.httpError resp.status)
    else
      .ok (resp.voices_field.getD [])

/-! ## Qwen3TTS (tts_providers.py) -/

/-- Fields `Qwen3TTS.__init__` would set before it unconditionally raises. -/
structure Qwen3State where
  model_path : Option String
  device : String
  voice : String
  format : String
deriving DecidableEq, Repr

/-- `Qwen3TTS.__init__`: sets its fields, then unconditionally raises
`NotImplementedError`, so construction never completes. -/
def Qwen3TTS.init (_env : PyEnv) (_cfg : Config) : Except PyErr Qwen3State :=
  .error (.notImplementedError "Qwen3 TTS implementation pending model release")

/-! ## OpenAITTS (tts_providers.py) -/

/-- Fields set by `OpenAITTS.__init__` (the client object is keyed by the
api key). -/
structure OpenAITTSState where
  api_key : String
  model : String
  voice : String
  format : String
deriving DecidableEq, Repr

/-- Arguments of `client.audio.speech.create`. -/
structure OpenAISpeechRequest where
  model : String
  voice : String
  input : String
  response_format : String
deriving DecidableEq, Repr

/-- Behaviour of the OpenAI TTS API through the sdk: `create` either raises
or returns a response whose bytes `stream_to_file` writes out. -/
structure OpenAITTSBackend where
  speech_create : OpenAISpeechRequest → Except PyErr ByteSeq

/-- `OpenAITTS.__init__(api_key, model="tts-1", voice="alloy",
format="mp3", **kwargs)`; `api_key` has no default, so calling the class
without it is a `TypeError`. -/
def OpenAITTS.init (env : PyEnv) (cfg : Config) : Except PyErr OpenAITTSState :=
  if env.openai_installed = false then
    .error (.importError "openai not installed. Run: pip install openai")
  else
    match cfg.api_key with
    | none => .error (.typeError "OpenAITTS missing required argument: api_key")
    | some key =>
      .ok { api_key := key
            model := cfg.model.getD "tts-1"
            voice := cfg.voice.getD "alloy"
            format := cfg.format.getD "mp3" }

/-- The arguments `OpenAITTS.synthesize` passes to
`client.audio.speech.create`: voice, model and format come from the kwargs
when present, else from the adapter's configured defaults. -/
def OpenAITTS.requestOf (s : OpenAITTSState) (kw : Kwargs) (text : String) :
    OpenAISpeechRequest :=
  { model := kwGet kw.model s.model
    voice := kwGet kw.voice s.voice
    input := text
    response_format := kwGet kw.format s.format }

/-- `OpenAITTS.synthesize(text, output_file, **kwargs)`: call the API with
kwargs-or-default voice/model/format, then `response.stream_to_file`. -/
def OpenAITTS.synthesize (s : OpenAITTSState) (bk : OpenAITTSBackend)
    (text output_file : String) (kw : Kwargs) (fs : FS) :
    Except PyErr Unit × FS :=
  match bk.speech_create (OpenAITTS.requestOf s kw text) with
  | .error e => (.error e, fs)
  | .ok bytes => (.ok (), fsWrite fs output_file bytes)

/-! ## ElevenLabsTTS (tts_providers.py) -/

/-- Fields set by `ElevenLabsTTS.__init__`. -/
structure ElevenLabsState where
  api_key : String
  voice_id : String
  model : String
  format : String
deriving DecidableEq, Repr

/-- The POST to `https://api.elevenlabs.io/v1/text-to-speech/{voice_id}`. -/
structure ElevenRequest where
  voice_id : String
  api_key : String
  text : String
  model_id : String
  output_format : String
deriving DecidableEq, Repr

/-- Behaviour of the ElevenLabs API through `requests`. -/
structure ElevenBackend where
  tts_post : ElevenRequest → Except PyErr HTTPResponse

/-- `ElevenLabsTTS.__init__(api_key, voice_id="default",
model="eleven_multilingual_v2", format="mp3", **kwargs)`. -/
def ElevenLabsTTS.init (env : PyEnv) (cfg : Config) :
    Except PyErr ElevenLabsState :=
  if env.requests_installed = false then
    .error (.importError "requests not installed. Run: pip install requests")
  else
    match cfg.api_key with
    | none => .error (.typeError "ElevenLabsTTS missing required argument: api_key")
    | some key =>
      .ok { api_key := key
            voice_id := cfg.voice_id.getD "default"
            model := cfg.model.getD "eleven_multilingual_v2"
            format := cfg.format.getD "mp3" }

/-- The POST `ElevenLabsTTS.synthesize` sends: only `voice_id` is
overridable via kwargs; model and format always come from the adapter. -/
def ElevenLabsTTS.requestOf (s : ElevenLabsState) (kw : Kwargs)
    (text : String) : ElevenRequest :=
  { voice_id := kwGet kw.voice_id s.voice_id
    api_key := s.api_key
    text := text
    model_id := s.model
    output_format := s.format }

/-- `ElevenLabsTTS.synthesize(text, output_file, **kwargs)`: only
`voice_id` is overridable; POST, `raise_for_status`, then write the body. -/
def ElevenLabsTTS.synthesize (s : ElevenLabsState) (bk : ElevenBackend)
    (text output_file : String) (kw : Kwargs) (fs : FS) :
    Except PyErr Unit × FS :=
  match bk.tts_post (ElevenLabsTTS.requestOf s kw text) with
  | .error e => (.error e, fs)
  | .ok resp =>
    match raise_for_status resp with
    | .error e => (.error e, fs)
    | .ok _ => (.ok (), fsWrite fs output_file resp.content)

/-! ## STT adapters (stt_providers.py) -/

/-- Fields set by `WhisperSTT.__init__` (the loaded model is an opaque
handle produced by `whisper.load_model`). -/
structure WhisperState where
  model_name : String
  model : Nat
deriving DecidableEq, Repr

/-- `WhisperSTT.__init__(model="tiny", device=None, **kwargs)`:
imports `whisper`, then loads the model, passing `device` only when truthy. -/
def WhisperSTT.init (env : PyEnv) (cfg : Config) : Except PyErr WhisperState :=
  if env.whisper_installed = false then
    .error (.importError "whisper not installed. Run: pip install openai-whisper")
  else
    let model := cfg.model.getD "tiny"
    let device := cfg.device.getD ""
    match (if device ≠ "" then env.whisper_load model (some device)
           else env.whisper_load model none) with
    | .error e => .error e
    | .ok m => .ok { model_name := model, model := m }

/-- `WhisperSTT.transcribe_stream`: `raise NotImplementedError(...)`. -/
def WhisperSTT.transcribe_stream (_s : WhisperState) (_a : AudioStream) :
    Except PyErr (List TranscriptionResult) :=
  .error (.notImplementedError "Streaming not yet implemented for whisper")

/-- Field set by `FasterWhisperSTT.__init__`. -/
structure FasterWhisperState where
  model : Nat
deriving DecidableEq, Repr

/-- `FasterWhisperSTT.__init__(model="base", device="cpu",
compute_type="int8", **kwargs)`: imports `faster_whisper`, then constructs
`WhisperModel(model, device=device, compute_type=compute_type)`. -/
def FasterWhisperSTT.init (env : PyEnv) (cfg : Config) :
    Except PyErr FasterWhisperState :=
  if env.faster_whisper_installed = false then
    .error (.importError "faster-whisper not installed. Run: pip install faster-whisper")
  else
    match env.fw_load (cfg.model.getD "base") (cfg.device.getD "cpu")
        (cfg.compute_type.getD "int8") with
    | .error e => .error e
    | .ok m => .ok { model := m }

/-- `FasterWhisperSTT.transcribe_stream`: `raise NotImplementedError(...)`. -/
def FasterWhisperSTT.transcribe_stream (_s : FasterWhisperState)
    (_a : AudioStream) : Except PyErr (List TranscriptionResult) :=
  .error (.notImplementedError "Streaming not yet implemented for faster-whisper")

/-- Fields set by `OpenAIWhisperSTT.__init__`. -/
structure OpenAIWhisperState where
  api_key : String
  model : String
deriving DecidableEq, Repr

/-- `OpenAIWhisperSTT.__init__(api_key, model="whisper-1", **kwargs)`:
imports `openai`; `api_key` has no default. -/
def OpenAIWhisperSTT.init (env : PyEnv) (cfg : Config) :
    Except PyErr OpenAIWhisperState :=
  if env.openai_installed = false then
    .error (.importError "openai not installed. Run: pip install openai")
  else
    match cfg.api_key with
    | none => .error (.typeError "OpenAIWhisperSTT missing required argument: api_key")
    | some key => .ok { api_key := key, model := cfg.model.getD "whisper-1" }

/-- `OpenAIWhisperSTT.transcribe_stream`: `raise NotImplementedError(...)`.
The source message is paraphrased without its apostrophe. -/
def OpenAIWhisperSTT.transcribe_stream (_s : OpenAIWhisperState)
    (_a : AudioStream) : Except PyErr (List TranscriptionResult) :=
  .error (.notImplementedError "OpenAI Whisper API does not support streaming")

/-- Fields set by `GoogleCloudSTT.__init__` (the client is an opaque handle
from `speech.SpeechClient()`). -/
structure GoogleCloudState where
  client : Nat
  language : String
deriving DecidableEq, Repr

/-- `GoogleCloudSTT.__init__(api_key, language="en-US", **kwargs)`:
imports `google.cloud.speech`; `api_key` has no default; constructing
`SpeechClient()` may itself fail (e.g. missing credentials). -/
def GoogleCloudSTT.init (env : PyEnv) (cfg : Config) :
    Except PyErr GoogleCloudState :=
  if env.google_installed = false then
    .error (.importError "google-cloud-speech not installed. Run: pip install google-cloud-speech")
  else
    match cfg.api_key with
    | none => .error (.typeError "GoogleCloudSTT missing required argument: api_key")
    | some _ =>
      match env.google_client with
      | .error e => .error e
      | .ok c => .ok { client := c, language := cfg.language.getD "en-US" }

/-- `GoogleCloudSTT.transcribe_stream`: `raise NotImplementedError(...)`. -/
def GoogleCloudSTT.transcribe_stream (_s : GoogleCloudState)
    (_a : AudioStream) : Except PyErr (List TranscriptionResult) :=
  .error (.notImplementedError "Streaming not yet implemented")

/-! ## ProviderFactory (providers.py) -/

/-- One fully-constructed provider instance of the STT category. -/
inductive STTInst where
  | whisper (s : WhisperState)
  | fasterWhisper (s : FasterWhisperState)
  | openaiWhisper (s : OpenAIWhisperState)
  | googleCloud (s : GoogleCloudState)
deriving DecidableEq, Repr

/-- One fully-constructed provider instance of the TTS category. -/
inductive TTSInst where
  | kokoro (s : KokoroState)
  | qwen3 (s : Qwen3State)
  | openai (s : OpenAITTSState)
  | elevenlabs (s : ElevenLabsState)
deriving DecidableEq, Repr

/-- Python-dict lookup on an association list where the most recent
assignment is at the head. -/
def lookupA {α : Type} : List (String × α) → String → Option α
  | [], _ => none
  | (k, v) :: rest, key => if k = key then some v else lookupA rest key

/-- The two class-level dicts of `ProviderFactory`
(`_stt_providers`, `_tts_providers`); the stored value is the provider
class, embedded as its constructor applied to a config. -/
structure ProviderFactory where
  stt_providers : List (String × (Config → Except PyErr STTInst))
  tts_providers : List (String × (Config → Except PyErr TTSInst))

/-- `ProviderFactory.register_stt`: dict assignment
`cls._stt_providers[name] = provider_class` (overwrites silently). -/
def ProviderFactory.register_stt (f : ProviderFactory) (name : String)
    (provider_class : Config → Except PyErr STTInst) : ProviderFactory :=
  { f with stt_providers := (name, provider_class) :: f.stt_providers }

/-- `ProviderFactory.register_tts`: dict assignment
`cls._tts_providers[name] = provider_class`. -/
def ProviderFactory.register_tts (f : ProviderFactory) (name : String)
    (provider_class : Config → Except PyErr TTSInst) : ProviderFactory :=
  { f with tts_providers := (name, provider_class) :: f.tts_providers }

/-- `ProviderFactory.create_stt`: membership test, `ValueError` naming the
unknown provider, else `provider_class(**config)` with any constructor
failure propagating unchanged. -/
def ProviderFactory.create_stt (f : ProviderFactory) (provider_name : String)
    (config : Config) : Except PyErr STTInst :=
  match lookupA f.stt_providers provider_name with
  | none => .error (.valueError ("Unknown STT provider: " ++ provider_name))
  | some provider_class => provider_class config

/-- `ProviderFactory.create_tts`: same shape for the TTS table. -/
def ProviderFactory.create_tts (f : ProviderFactory) (provider_name : String)
    (config : Config) : Except PyErr TTSInst :=
  match lookupA f.tts_providers provider_name with
  | none => .error (.valueError ("Unknown TTS provider: " ++ provider_name))
  | some provider_class => provider_class config

/-- The registrations executed at the bottom of `stt_providers.py` and
`tts_providers.py` when the modules are imported, in module order. -/
def defaultFactory (env : PyEnv) : ProviderFactory :=
  let f : ProviderFactory := ⟨[], []⟩
  let f := f.register_stt "whisper" (fun cfg => (WhisperSTT.init env cfg).map .whisper)
  let f := f.register_stt "faster-whisper"
    (fun cfg => (FasterWhisperSTT.init env cfg).map .fasterWhisper)
  let f := f.register_stt "openai"
    (fun cfg => (OpenAIWhisperSTT.init env cfg).map .openaiWhisper)
  let f := f.register_stt "google"
    (fun cfg => (GoogleCloudSTT.init env cfg).map .googleCloud)
  let f := f.register_tts "kokoro" (fun cfg => (KokoroTTS.init env cfg).map .kokoro)
  let f := f.register_tts "qwen3" (fun cfg => (Qwen3TTS.init env cfg).map .qwen3)
  let f := f.register_tts "openai" (fun cfg => (OpenAITTS.init env cfg).map .openai)
  let f := f.register_tts "elevenlabs"
    (fun cfg => (ElevenLabsTTS.init env cfg).map .elevenlabs)
  f

/-! ## AudioProcessor (audio_processor.py) -/

/-- The subprocess layer: running an ffmpeg command line with `check=True`
either succeeds or raises `CalledProcessError` (carrying stderr). -/
structure SubprocessEnv where
  run : List String → Except PyErr Unit

/-- Fields set by `AudioProcessor.__init__`: the temp dir and the ffmpeg
availability flag, probed once by running `ffmpeg -version` and cached. -/
structure AudioProcessor where
  temp_dir : String
  ffmpeg_available : Bool
deriving DecidableEq, Repr

/-- `AudioProcessor.__init__(temp_dir=None)`: `ffmpeg_available` is set
from the one construction-time probe (`ffmpeg -version`); later calls read
only the cached flag. -/
def AudioProcessor.init (temp_dir : Option String) (system_temp : String)
    (probe : Except PyErr Unit) : AudioProcessor :=
  { temp_dir := temp_dir.getD system_temp
    ffmpeg_available := match probe with | .ok _ => true | .error _ => false }

/-- The ffmpeg command line built by `convert_for_stt`. -/
def sttCmd (input_path output_path : String) : List String :=
  ["ffmpeg", "-i", input_path, "-ar", "16000", "-ac", "1",
   "-c:a", "pcm_s16le", "-y", output_path]

/-- `AudioProcessor.convert_for_stt(input_path, output_path=None)`:
raises `RuntimeError` when ffmpeg is unavailable, else runs the conversion
and wraps a non-zero exit in `RuntimeError`. -/
def AudioProcessor.convert_for_stt (ap : AudioProcessor) (env : SubprocessEnv)
    (input_path : String) (output_path : Option String) :
    Except PyErr String :=
  if ap.ffmpeg_available = false then
    .error (.runtimeError "FFmpeg required for audio conversion")
  else
    let out := output_path.getD
      (ap.temp_dir ++ "/converted_" ++ input_path ++ ".wav")
    match env.run (sttCmd input_path out) with
    | .ok _ => .ok out
    | .error _ => .error (.runtimeError "Audio conversion failed")

/-- The ffmpeg command line built by `convert_for_platform`. -/
def platformCmd (platform input_path output_path : String) : List String :=
  if platform = "telegram" then
    ["ffmpeg", "-i", input_path, "-c:a", "libopus", "-b:a", "64k", "-y",
     output_path]
  else
    ["ffmpeg", "-i", input_path, "-codec:a", "libmp3lame", "-b:a", "128k",
     "-y", output_path]

/-- `AudioProcessor.convert_for_platform(input_path, platform,
output_path=None)`: when ffmpeg is unavailable it returns the input path
as-is without raising; otherwise it re-encodes for the platform. -/
def AudioProcessor.convert_for_platform (ap : AudioProcessor)
    (env : SubprocessEnv) (input_path platform : String)
    (output_path : Option String) : Except PyErr String :=
  if ap.ffmpeg_available = false then
    .ok input_path
  else
    let out := output_path.getD
      (ap.temp_dir ++ "/response_" ++ input_path
        ++ (if platform = "telegram" then ".ogg" else ".mp3"))
    match env.run (platformCmd platform input_path out) with
    | .ok _ => .ok out
    | .error _ => .error (.runtimeError "Audio conversion failed")

/-! ## VoiceHandler (voice_handler.py) -/

/-- A `VoiceHandler` as constructed from already-instantiated provider
objects.  The duck-typed STT provider is its `transcribe` behaviour; the
duck-typed TTS provider is a state of type `τ` plus its method behaviours
(each returning the possibly mutated state, since a Python method can
assign to `self` before raising). -/
structure VoiceHandler (τ : Type) where
  stt_transcribe : String → Except PyErr TranscriptionResult
  tts : τ
  tts_synthesize : τ → String → String → Kwargs → FS →
    Except PyErr Unit × τ × FS
  tts_get_voices : τ → Except PyErr (List String)
  defaults : List (String × Bool)

/-- The kwargs dict `VoiceHandler.synthesize` assembles: a key is added
only when the corresponding argument is not `None`. -/
def mkKwargs (voice format : Option String) : Kwargs :=
  { voice := voice, format := format }

/-- `VoiceHandler.transcribe(audio_path)`: delegates, logs, returns
`result["text"]`; any failure is logged then re-raised unchanged. -/
def VoiceHandler.transcribe {τ : Type} (h : VoiceHandler τ)
    (audio_path : String) : Except PyErr String :=
  match h.stt_transcribe audio_path with
  | .error e => .error e
  | .ok result => .ok result.text

/-- `VoiceHandler.synthesize(text, output_file, voice=None, format=None)`:
assembles kwargs from the non-`None` arguments and delegates; any failure
is logged then re-raised unchanged. -/
def VoiceHandler.synthesize {τ : Type} (h : VoiceHandler τ)
    (text output_file : String) (voice format : Option String) (fs : FS) :
    Except PyErr Unit × VoiceHandler τ × FS :=
  match h.tts_synthesize h.tts text output_file (mkKwargs voice format) fs with
  | (r, t, fs1) => (r, { h with tts := t }, fs1)

/-- `VoiceHandler.get_voices()`: delegates; any failure is caught and
turned into `[]`. -/
def VoiceHandler.get_voices {τ : Type} (h : VoiceHandler τ) :
    Except PyErr (List String) :=
  match h.tts_get_voices h.tts with
  | .ok voices => .ok voices
  | .error _ => .ok []

/-- Result dict of `VoiceHandler.test_connection`. -/
structure TestResults where
  stt : Bool
  tts : Bool
deriving DecidableEq, Repr

/-- What `test_connection` needs from the ambient world: whether building
the temp-file silent-WAV probe and the temp output file succeed (tempfile
plus the `wave` module writes, all inside the same `try`). -/
structure TestConnEnv where
  makeWavProbe : Except PyErr String
  makeTmpOgg : Except PyErr String

/-- The STT leg of `test_connection`: `False` unless building the silent
WAV probe and transcribing it both succeed. -/
def sttProbeResult {τ : Type} (h : VoiceHandler τ) (env : TestConnEnv) :
    Bool :=
  match env.makeWavProbe with
  | .error _ => false
  | .ok probe =>
    match h.stt_transcribe probe with
    | .error _ => false
    | .ok _ => true

/-- `VoiceHandler.test_connection()`: starts from
`{"stt": False, "tts": False}`; each leg runs in its own catch-all `try`,
flipping its flag to `True` only after the probe call returns.  Every
exception of either leg is swallowed, so the function itself always
returns the results dict. -/
def VoiceHandler.test_connection {τ : Type} (h : VoiceHandler τ)
    (env : TestConnEnv) (fs : FS) :
    Except PyErr (TestResults × VoiceHandler τ × FS) :=
  let stt_ok : Bool := sttProbeResult h env
  match env.makeTmpOgg with
  | .error _ =>
    .ok ({ stt := stt_ok, tts := false }, h, fs)
  | .ok path =>
    match h.tts_synthesize h.tts "Test" path {} fs with
    | (.error _, t, fs1) =>
      .ok ({ stt := stt_ok, tts := false }, { h with tts := t }, fs1)
    | (.ok _, t, fs1) =>
      .ok ({ stt := stt_ok, tts := true }, { h with tts := t },
        fsRemove fs1 path)

/-- A `VoiceHandler` whose TTS provider is a `KokoroTTS` instance talking
to backend `bk`: the method fields are exactly the `KokoroTTS` methods
(which never assign to `self`, so the state is returned unchanged). -/
def mkKokoroHandler (sttT : String → Except PyErr TranscriptionResult)
    (s : KokoroState) (bk : KokoroBackend) : VoiceHandler KokoroState :=
  { stt_transcribe := sttT
    tts := s
    tts_synthesize := fun st text out kw fs =>
      match KokoroTTS.synthesize st bk text out kw fs with
      | (r, fs1) => (r, st, fs1)
    tts_get_voices := fun st => KokoroTTS.get_voices st bk
    defaults := [] }

/-! ## Concrete fixtures used by witnesses and counterexamples -/

/-- A Python environment where every optional dependency imports and every
model load succeeds. -/
def envAll : PyEnv :=
  { requests_installed := true
    openai_installed := true
    whisper_installed := true
    faster_whisper_installed := true
    google_installed := true
    whisper_load := fun _ _ => .ok 0
    fw_load := fun _ _ _ => .ok 0
    google_client := .ok 0 }

/-- The `KokoroTTS` state produced by an empty config (all defaults). -/
def kokoroDefaultState : KokoroState :=
  { base_url := "http://localhost:8880/v1", voice := "af_bella", format := "ogg" }

/-- A Kokoro backend that accepts every request with a 200 response. -/
def kokoroAcceptingBackend : KokoroBackend :=
  { speech := fun _ => .ok { status := 200, content := [1, 2, 3] }
    voices := .ok { status := 200, voices_field := some ["af_bella"] } }

/-- A Kokoro backend that is unreachable: every call raises
`ConnectionError`. -/
def kokoroDownBackend : KokoroBackend :=
  { speech := fun _ => .error .connectionError
    voices := .error .connectionError }

/-- An ElevenLabs backend that is unreachable. -/
def elevenDownBackend : ElevenBackend :=
  { tts_post := fun _ => .error .connectionError }

/-- An ElevenLabs backend that accepts every request with a 200 response. -/
def elevenAcceptingBackend : ElevenBackend :=
  { tts_post := fun _ => .ok { status := 200, content := [7] } }

/-- An ElevenLabs adapter state for witnesses. -/
def elevenState : ElevenLabsState :=
  { api_key := "k", voice_id := "default",
    model := "eleven_multilingual_v2", format := "mp3" }

/-! ## Shared helper lemmas -/

/-- An `Except.map` that produced `ok` came from an `ok` of the mapped
function's argument. -/
theorem exceptMap_ok {α β : Type} {m : Except PyErr α} {f : α → β} {b : β}
    (h : m.map f = .ok b) : ∃ a, m = .ok a ∧ b = f a := by
  cases m with
  | error e => simp [Except.map] at h
  | ok a =>
    refine ⟨a, rfl, ?_⟩
    simpa [Except.map] using h.symm

/-! ## Claim theorems -/

/-- C1: for every provider name and category of the self-registered
factory, `create` either returns a fully-constructed instance (one of the
adapter-state sums, obtained from a successful run of that adapter's
constructor) or raises: an unregistered name raises the unknown-provider
`ValueError`, and a registered name's result is exactly the constructor's
result, so any construction-time failure propagates immediately — `qwen3`,
whose constructor always raises, fails at `create` time, never later; an
`ok` result for `kokoro` is the complete state built by `KokoroTTS.init`. -/
theorem registry_create_constructs_or_raises (env : PyEnv) (name : String)
    (cfg : Config) :
    (lookupA (defaultFactory env).stt_providers name = none →
      (defaultFactory env).create_stt name cfg =
        .error (.valueError ("Unknown STT provider: " ++ name)))
    ∧ (∀ ctor, lookupA (defaultFactory env).stt_providers name = some ctor →
      (defaultFactory env).create_stt name cfg = ctor cfg)
    ∧ (lookupA (defaultFactory env).tts_providers name = none →
      (defaultFactory env).create_tts name cfg =
        .error (.valueError ("Unknown TTS provider: " ++ name)))
    ∧ (∀ ctor, lookupA (defaultFactory env).tts_providers name = some ctor →
      (defaultFactory env).create_tts name cfg = ctor cfg)
    ∧ ((defaultFactory env).create_tts "qwen3" cfg =
        .error (.notImplementedError "Qwen3 TTS implementation pending model release"))
    ∧ (∀ inst, (defaultFactory env).create_tts "kokoro" cfg = .ok inst →
        ∃ s, KokoroTTS.init env cfg = .ok s ∧ inst = TTSInst.kokoro s) := by
  refine ⟨?_, ?_, ?_, ?_, ?_, ?_⟩
  · intro h
    simp [ProviderFactory.create_stt, h]
  · intro ctor h
    simp [ProviderFactory.create_stt, h]
  · intro h
    simp [ProviderFactory.create_tts, h]
  · intro ctor h
    simp [ProviderFactory.create_tts, h]
  · rfl
  · intro inst h
    have h2 : (KokoroTTS.init env cfg).map TTSInst.kokoro = .ok inst := h
    obtain ⟨s, hs, hi⟩ := exceptMap_ok h2
    exact ⟨s, hs, hi⟩

/-- Witness for C1 at concrete inputs: creating `qwen3` fails immediately
with the constructor's `NotImplementedError`, and an `ok` creation of
`kokoro` is the fully-initialized default state. -/
theorem registry_create_constructs_or_raises_witness :
    ((defaultFactory envAll).create_tts "qwen3" {} =
      .error (.notImplementedError "Qwen3 TTS implementation pending model release"))
    ∧ ∃ s, KokoroTTS.init envAll {} = .ok s ∧
        TTSInst.kokoro kokoroDefaultState = TTSInst.kokoro s :=
  ⟨(registry_create_constructs_or_raises envAll "qwen3" {}).2.2.2.2.1,
   (registry_create_constructs_or_raises envAll "kokoro" {}).2.2.2.2.2
     (TTSInst.kokoro kokoroDefaultState) rfl⟩

/-- C2: for any factory state, an unregistered name in either category
makes `create` fail with the unknown-provider `ValueError`, whose message
contains the offered name. -/
theorem registry_unknown_provider (f : ProviderFactory) (name : String)
    (cfg : Config) :
    (lookupA f.stt_providers name = none →
      ∃ pre, f.create_stt name cfg = .error (.valueError (pre ++ name)))
    ∧ (lookupA f.tts_providers name = none →
      ∃ pre, f.create_tts name cfg = .error (.valueError (pre ++ name))) := by
  constructor
  · intro h
    exact ⟨"Unknown STT provider: ", by simp [ProviderFactory.create_stt, h]⟩
  · intro h
    exact ⟨"Unknown TTS provider: ", by simp [ProviderFactory.create_tts, h]⟩

/-- Witness for C2: `create` on the fully-registered default factory with
the name "does-not-exist" fails in both categories with a message carrying
that name. -/
theorem registry_unknown_provider_witness :
    (∃ pre, (defaultFactory envAll).create_stt "does-not-exist" {} =
      .error (.valueError (pre ++ "does-not-exist")))
    ∧ (∃ pre, (defaultFactory envAll).create_tts "does-not-exist" {} =
      .error (.valueError (pre ++ "does-not-exist"))) :=
  ⟨(registry_unknown_provider (defaultFactory envAll) "does-not-exist" {}).1 rfl,
   (registry_unknown_provider (defaultFactory envAll) "does-not-exist" {}).2 rfl⟩

/-- C9: registration is insert/overwrite — re-registering a name in a
category replaces the earlier entry (last writer wins) — and the two
category tables are independent: registering in one leaves the other
table, and hence `create` in the other category, unchanged; the same name
registered in both categories resolves to its own entry in each. -/
theorem registry_register_overwrite_independent (f : ProviderFactory)
    (n m : String) (c c2 : Config → Except PyErr STTInst)
    (ct ct2 : Config → Except PyErr TTSInst) (cfg : Config) :
    (lookupA ((f.register_stt n c).register_stt n c2).stt_providers n = some c2)
    ∧ (lookupA ((f.register_tts n ct).register_tts n ct2).tts_providers n = some ct2)
    ∧ ((f.register_stt n c).tts_providers = f.tts_providers)
    ∧ ((f.register_tts n ct).stt_providers = f.stt_providers)
    ∧ ((f.register_stt n c).create_tts m cfg = f.create_tts m cfg)
    ∧ ((f.register_tts n ct).create_stt m cfg = f.create_stt m cfg)
    ∧ (lookupA ((f.register_stt n c).register_tts n ct).stt_providers n = some c)
    ∧ (lookupA ((f.register_stt n c).register_tts n ct).tts_providers n = some ct) := by
  refine ⟨?_, ?_, rfl, rfl, rfl, rfl, ?_, ?_⟩ <;>
    simp [ProviderFactory.register_stt, ProviderFactory.register_tts, lookupA]

/-- A handler whose STT and TTS providers both fail every call with a
`ConnectionError` (both backends unreachable). -/
def downHandler : VoiceHandler Unit :=
  { stt_transcribe := fun _ => .error .connectionError
    tts := ()
    tts_synthesize := fun s _ _ _ fs => (.error .connectionError, s, fs)
    tts_get_voices := fun _ => .error .connectionError
    defaults := [] }

/-- A test-connection environment where both temp-file probes are created
successfully. -/
def okProbeEnv : TestConnEnv :=
  { makeWavProbe := .ok "/tmp/probe.wav", makeTmpOgg := .ok "/tmp/probe.ogg" }

/-- C3: `test_connection` never raises — for every handler behaviour,
probe environment and file system it returns `ok` with a results dict of
the two booleans — and when both legs fail (the transcriber errors on
every path and the synthesizer errors on every call) the dict is
`{stt: false, tts: false}`. -/
theorem test_connection_never_raises {τ : Type} (h : VoiceHandler τ)
    (env : TestConnEnv) (fs : FS) :
    (∃ r h2 fs2, h.test_connection env fs = .ok (r, h2, fs2))
    ∧ ((∀ p, ∃ e, h.stt_transcribe p = Except.error e) →
       (∀ path fs0, ∃ e t fs1,
          h.tts_synthesize h.tts "Test" path {} fs0 = (Except.error e, t, fs1)) →
       ∃ h2 fs2, h.test_connection env fs =
         .ok ({ stt := false, tts := false }, h2, fs2)) := by
  constructor
  · rcases ho : env.makeTmpOgg with e | path
    · exact ⟨{ stt := sttProbeResult h env, tts := false }, h, fs,
        by simp [VoiceHandler.test_connection, ho]⟩
    · rcases hs : h.tts_synthesize h.tts "Test" path {} fs with ⟨r, t, fs1⟩
      rcases r with e | u
      · exact ⟨{ stt := sttProbeResult h env, tts := false },
          { h with tts := t }, fs1,
          by simp [VoiceHandler.test_connection, ho, hs]⟩
      · exact ⟨{ stt := sttProbeResult h env, tts := true },
          { h with tts := t }, fsRemove fs1 path,
          by simp [VoiceHandler.test_connection, ho, hs]⟩
  · intro hstt htts
    have hwleg : sttProbeResult h env = false := by
      rcases hw : env.makeWavProbe with e | probe
      · simp [sttProbeResult, hw]
      · obtain ⟨e3, he3⟩ := hstt probe
        simp [sttProbeResult, hw, he3]
    rcases ho : env.makeTmpOgg with e | path
    · exact ⟨h, fs, by simp [VoiceHandler.test_connection, ho, hwleg]⟩
    · obtain ⟨e4, t, fs1, ht⟩ := htts path fs
      exact ⟨{ h with tts := t }, fs1,
        by simp [VoiceHandler.test_connection, ho, ht, hwleg]⟩

/-- Witness for C3: with both providers unreachable (every call raises
`ConnectionError`) and the probe files creatable, `test_connection`
returns `ok` with `{stt: false, tts: false}`. -/
theorem test_connection_never_raises_witness :
    ∃ h2 fs2, downHandler.test_connection okProbeEnv [] =
      .ok ({ stt := false, tts := false }, h2, fs2) :=
  (test_connection_never_raises downHandler okProbeEnv []).2
    (fun _ => ⟨.connectionError, rfl⟩)
    (fun _ fs0 => ⟨.connectionError, (), fs0, rfl⟩)

/-- C5: the orchestrator assembles the kwargs dict only from non-`None`
arguments (a `None` voice or format contributes no key, so the adapter's
configured default applies), and a per-call override never mutates the
adapter: for a Kokoro-backed handler, the overridden call sends voice
`v` to the backend, the handler (including the adapter state) is unchanged
afterwards, and a subsequent call without overrides sends the originally
configured voice. -/
theorem synthesize_override_non_mutating
    (sttT : String → Except PyErr TranscriptionResult) (s : KokoroState)
    (bk : KokoroBackend) (text p text2 : String) (v : String) (fs : FS) :
    (mkKwargs none none = { voice := none, format := none })
    ∧ (mkKwargs (some v) none = { voice := some v, format := none })
    ∧ (((mkKokoroHandler sttT s bk).synthesize text p (some v) none fs).1 =
        (KokoroTTS.synthesize s bk text p (mkKwargs (some v) none) fs).1)
    ∧ ((KokoroTTS.requestOf s (mkKwargs (some v) none) text).voice = v)
    ∧ (((mkKokoroHandler sttT s bk).synthesize text p (some v) none fs).2.1 =
        mkKokoroHandler sttT s bk)
    ∧ ((KokoroTTS.requestOf
          (((mkKokoroHandler sttT s bk).synthesize text p (some v) none fs).2.1).tts
          (mkKwargs none none) text2).voice = s.voice) :=
  ⟨rfl, rfl, rfl, rfl, rfl, rfl⟩

/-- C6: when the external conversion tool was absent at construction (the
probe failed, so the cached `ffmpeg_available` flag is `false`),
`convert_for_platform` returns the original input path unchanged without
raising — for every input, platform, output argument and current
subprocess behaviour — while `convert_for_stt` under the same condition
fails with the `RuntimeError` that plays the role of `ToolUnavailable`. -/
theorem converter_absent_asymmetry (td : Option String) (st : String)
    (probe : Except PyErr Unit) (env : SubprocessEnv)
    (input platform : String) (outp : Option String) (e : PyErr)
    (hp : probe = .error e) :
    ((AudioProcessor.init td st probe).convert_for_platform env input
        platform outp = .ok input)
    ∧ ((AudioProcessor.init td st probe).convert_for_stt env input outp =
        .error (.runtimeError "FFmpeg required for audio conversion")) := by
  constructor
  · simp [AudioProcessor.init, AudioProcessor.convert_for_platform, hp]
  · simp [AudioProcessor.init, AudioProcessor.convert_for_stt, hp]

/-- Witness for C6: a processor built while ffmpeg was missing passes the
input through unchanged and refuses STT conversion, even though the
ambient subprocess environment would now succeed (the probe result is
cached). -/
theorem converter_absent_asymmetry_witness :
    ((AudioProcessor.init none "/tmp"
        (.error (.otherError "ffmpeg missing"))).convert_for_platform
        ⟨fun _ => .ok ()⟩ "in.wav" "telegram" none = .ok "in.wav")
    ∧ ((AudioProcessor.init none "/tmp"
        (.error (.otherError "ffmpeg missing"))).convert_for_stt
        ⟨fun _ => .ok ()⟩ "in.wav" none =
        .error (.runtimeError "FFmpeg required for audio conversion")) :=
  converter_absent_asymmetry none "/tmp" (.error (.otherError "ffmpeg missing"))
    ⟨fun _ => .ok ()⟩ "in.wav" "telegram" none (.otherError "ffmpeg missing") rfl

/-- C7: the orchestrator's `get_voices` catches every failure of the
adapter's voice listing and returns the empty list to its caller, while
the raw `KokoroTTS.get_voices` propagates the `ConnectionError` (the
spec's `BackendUnavailable`) of an unreachable backend. -/
theorem get_voices_advisory {τ : Type} (h : VoiceHandler τ)
    (s : KokoroState) (bk : KokoroBackend) :
    (∀ e, h.tts_get_voices h.tts = .error e → h.get_voices = .ok [])
    ∧ (∀ e, bk.voices = .error e → KokoroTTS.get_voices s bk = .error e) := by
  constructor
  · intro e he
    simp [VoiceHandler.get_voices, he]
  · intro e he
    simp [KokoroTTS.get_voices, he]

/-- Witness for C7: against a fully unreachable backend the orchestrator
returns `[]` while the raw adapter call raises `ConnectionError`. -/
theorem get_voices_advisory_witness :
    downHandler.get_voices = .ok []
    ∧ KokoroTTS.get_voices kokoroDefaultState kokoroDownBackend =
      .error .connectionError :=
  ⟨(get_voices_advisory downHandler kokoroDefaultState kokoroDownBackend).1
      .connectionError rfl,
   (get_voices_advisory downHandler kokoroDefaultState kokoroDownBackend).2
      .connectionError rfl⟩

/-- C8: in every current STT adapter, `transcribe_stream` fails
deterministically with the `NotImplementedError` that plays the role of
`NotSupported`, for every adapter state and every audio stream: the result
is an error carrying no partial transcription, never a hang or a silent
no-op. -/
theorem transcribe_stream_not_supported (w : WhisperState)
    (f : FasterWhisperState) (o : OpenAIWhisperState) (g : GoogleCloudState)
    (a : AudioStream) :
    (WhisperSTT.transcribe_stream w a =
      .error (.notImplementedError "Streaming not yet implemented for whisper"))
    ∧ (FasterWhisperSTT.transcribe_stream f a =
      .error (.notImplementedError "Streaming not yet implemented for faster-whisper"))
    ∧ (OpenAIWhisperSTT.transcribe_stream o a =
      .error (.notImplementedError "OpenAI Whisper API does not support streaming"))
    ∧ (GoogleCloudSTT.transcribe_stream g a =
      .error (.notImplementedError "Streaming not yet implemented")) :=
  ⟨rfl, rfl, rfl, rfl⟩

/-- C10: for the two requests-based synthesizers, a failed backend call —
a connection failure, or a response with a failure status (the 4xx/5xx
codes `raise_for_status` raises on) — makes `synthesize` raise before the
`open(output_file, "wb")`, so the file system is returned unchanged: the
output file is neither created nor modified. -/
theorem synthesize_atomic_on_backend_failure (s : KokoroState)
    (bk : KokoroBackend) (es : ElevenLabsState) (ebk : ElevenBackend)
    (text out : String) (kw : Kwargs) (fs : FS) :
    (∀ e, bk.speech (KokoroTTS.requestOf s kw text) = .error e →
      KokoroTTS.synthesize s bk text out kw fs = (.error e, fs))
    ∧ (∀ resp, bk.speech (KokoroTTS.requestOf s kw text) = .ok resp →
        400 ≤ resp.status → resp.status < 600 →
        KokoroTTS.synthesize s bk text out kw fs =
          (.error (.httpError resp.status), fs))
    ∧ (∀ e, ebk.tts_post (ElevenLabsTTS.requestOf es kw text) = .error e →
        ElevenLabsTTS.synthesize es ebk text out kw fs = (.error e, fs))
    ∧ (∀ resp, ebk.tts_post (ElevenLabsTTS.requestOf es kw text) = .ok resp →
        400 ≤ resp.status → resp.status < 600 →
        ElevenLabsTTS.synthesize es ebk text out kw fs =
          (.error (.httpError resp.status), fs)) := by
  refine ⟨?_, ?_, ?_, ?_⟩
  · intro e he
    simp [KokoroTTS.synthesize, he]
  · intro resp hr h4 h6
    simp [KokoroTTS.synthesize, hr, raise_for_status, h4, h6]
  · intro e he
    simp [ElevenLabsTTS.synthesize, he]
  · intro resp hr h4 h6
    simp [ElevenLabsTTS.synthesize, hr, raise_for_status, h4, h6]

/-- Witness for C10: with unreachable backends both synthesizers raise the
`ConnectionError` and leave the empty file system empty; the same holds on
a 500 response. -/
theorem synthesize_atomic_on_backend_failure_witness :
    (KokoroTTS.synthesize kokoroDefaultState kokoroDownBackend "hi" "o.ogg"
      {} [] = (.error .connectionError, []))
    ∧ (ElevenLabsTTS.synthesize elevenState elevenDownBackend "hi" "o.mp3"
      {} [] = (.error .connectionError, [])) :=
  ⟨(synthesize_atomic_on_backend_failure kokoroDefaultState kokoroDownBackend
      elevenState elevenDownBackend "hi" "o.ogg" {} []).1 .connectionError rfl,
   (synthesize_atomic_on_backend_failure kokoroDefaultState kokoroDownBackend
      elevenState elevenDownBackend "hi" "o.mp3" {} []).2.2.1 .connectionError rfl⟩

/-- Refutes C4 at a concrete input: no adapter validates empty text.
`KokoroTTS.synthesize("", "out.ogg")` against a backend that accepts the
request with a 200 response raises nothing at all — in particular no
`InputError`-style exception — and creates the output file with the
returned audio bytes, contradicting "fails with InputError and does not
create or write the output file". -/
theorem synthesize_empty_text_counterexample :
    KokoroTTS.synthesize kokoroDefaultState kokoroAcceptingBackend ""
      "out.ogg" {} [] = (.ok (), [("out.ogg", [1, 2, 3])]) := rfl

/-- C4 as amended: no constructible Synthesizer adapter validates empty
text — `KokoroTTS`, `OpenAITTS` and `ElevenLabsTTS` all forward the empty
string to the backend verbatim; each fails only when the backend call
itself fails (connection error, or a 4xx/5xx status for the
requests-based adapters), and in that case the output file is neither
created nor written; when the backend accepts the empty text, the
returned audio is written normally.  The fourth adapter, `Qwen3TTS`, is
never constructible at all: its constructor raises unconditionally, so no
`Qwen3TTS` Synthesizer instance ever exists to be called. -/
theorem synthesize_empty_text_no_validation (s : KokoroState)
    (bk : KokoroBackend) (os : OpenAITTSState) (obk : OpenAITTSBackend)
    (es : ElevenLabsState) (ebk : ElevenBackend)
    (out : String) (kw : Kwargs) (fs : FS) (env : PyEnv) (cfg : Config) :
    ((KokoroTTS.requestOf s kw "").input = "")
    ∧ ((OpenAITTS.requestOf os kw "").input = "")
    ∧ ((ElevenLabsTTS.requestOf es kw "").text = "")
    ∧ (∀ e, bk.speech (KokoroTTS.requestOf s kw "") = .error e →
        KokoroTTS.synthesize s bk "" out kw fs = (.error e, fs))
    ∧ (∀ resp, bk.speech (KokoroTTS.requestOf s kw "") = .ok resp →
        400 ≤ resp.status → resp.status < 600 →
        KokoroTTS.synthesize s bk "" out kw fs =
          (.error (.httpError resp.status), fs))
    ∧ (∀ resp, bk.speech (KokoroTTS.requestOf s kw "") = .ok resp →
        resp.status < 400 →
        KokoroTTS.synthesize s bk "" out kw fs =
          (.ok (), fsWrite fs out resp.content))
    ∧ (∀ e, obk.speech_create (OpenAITTS.requestOf os kw "") = .error e →
        OpenAITTS.synthesize os obk "" out kw fs = (.error e, fs))
    ∧ (∀ bytes, obk.speech_create (OpenAITTS.requestOf os kw "") = .ok bytes →
        OpenAITTS.synthesize os obk "" out kw fs =
          (.ok (), fsWrite fs out bytes))
    ∧ (∀ e, ebk.tts_post (ElevenLabsTTS.requestOf es kw "") = .error e →
        ElevenLabsTTS.synthesize es ebk "" out kw fs = (.error e, fs))
    ∧ (∀ resp, ebk.tts_post (ElevenLabsTTS.requestOf es kw "") = .ok resp →
        400 ≤ resp.status → resp.status < 600 →
        ElevenLabsTTS.synthesize es ebk "" out kw fs =
          (.error (.httpError resp.status), fs))
    ∧ (∀ resp, ebk.tts_post (ElevenLabsTTS.requestOf es kw "") = .ok resp →
        resp.status < 400 →
        ElevenLabsTTS.synthesize es ebk "" out kw fs =
          (.ok (), fsWrite fs out resp.content))
    ∧ (Qwen3TTS.init env cfg =
        .error (.notImplementedError "Qwen3 TTS implementation pending model release")) := by
  refine ⟨rfl, rfl, rfl, ?_, ?_, ?_, ?_, ?_, ?_, ?_, ?_, rfl⟩
  · intro e he
    simp [KokoroTTS.synthesize, he]
  · intro resp hr h4 h6
    simp [KokoroTTS.synthesize, hr, raise_for_status, h4, h6]
  · intro resp hr h4
    have : ¬ (400 ≤ resp.status ∧ resp.status < 600) := by omega
    simp [KokoroTTS.synthesize, hr, raise_for_status, this]
  · intro e he
    simp [OpenAITTS.synthesize, he]
  · intro bytes hb
    simp [OpenAITTS.synthesize, hb]
  · intro e he
    simp [ElevenLabsTTS.synthesize, he]
  · intro resp hr h4 h6
    simp [ElevenLabsTTS.synthesize, hr, raise_for_status, h4, h6]
  · intro resp hr h4
    have : ¬ (400 ≤ resp.status ∧ resp.status < 600) := by omega
    simp [ElevenLabsTTS.synthesize, hr, raise_for_status, this]

/-- Witness for the amended C4: against accepting backends an empty-text
synthesis succeeds and writes the file for both Kokoro and ElevenLabs;
against unreachable backends both fail with `ConnectionError` and write
nothing. -/
theorem synthesize_empty_text_no_validation_witness :
    (KokoroTTS.synthesize kokoroDefaultState kokoroAcceptingBackend ""
      "out.ogg" {} [] = (.ok (), fsWrite [] "out.ogg" [1, 2, 3]))
    ∧ (KokoroTTS.synthesize kokoroDefaultState kokoroDownBackend ""
      "o.mp3" {} [] = (.error .connectionError, []))
    ∧ (ElevenLabsTTS.synthesize elevenState elevenDownBackend ""
      "o.mp3" {} [] = (.error .connectionError, []))
    ∧ (ElevenLabsTTS.synthesize elevenState elevenAcceptingBackend ""
      "out.ogg" {} [] = (.ok (), fsWrite [] "out.ogg" [7])) := by
  have hOk := synthesize_empty_text_no_validation kokoroDefaultState
    kokoroAcceptingBackend ⟨"k", "tts-1", "alloy", "mp3"⟩ ⟨fun _ => .ok []⟩
    elevenState elevenAcceptingBackend "out.ogg" {} [] envAll {}
  have hDown := synthesize_empty_text_no_validation kokoroDefaultState
    kokoroDownBackend ⟨"k", "tts-1", "alloy", "mp3"⟩ ⟨fun _ => .ok []⟩
    elevenState elevenDownBackend "o.mp3" {} [] envAll {}
  refine ⟨?_, ?_, ?_, ?_⟩
  · exact hOk.2.2.2.2.2.1 { status := 200, content := [1, 2, 3] } rfl
      (by decide)
  · exact hDown.2.2.2.1 .connectionError rfl
  · exact hDown.2.2.2.2.2.2.2.2.1 .connectionError rfl
  · exact hOk.2.2.2.2.2.2.2.2.2.2.1 { status := 200, content := [7] } rfl
      (by decide)
